import Mathlib

/-!
Verification of the PlusCraft graphics bootstrap and frame loop.

The development shallowly embeds the two source variants of the program:
the cube variant (`main.cpp`, D3D11 default backend, indexed cube draw) and
the triangle variant (the unnamed second translation unit, OpenGL default
backend, non-indexed triangle draw).  GPU-side effects are modelled as an
explicit trace of actions; the mutable file-scope globals become an
explicit `AppState` record threaded through the loop.  Matrix arithmetic
is over `ℚ`; the trigonometric values produced by the float library are
abstracted into a `Trig` record of uninterpreted rational-valued
functions, so every theorem holds for any values those functions take.
-/

namespace PlusCraft

/-- 4×4 matrices over ℚ, stored row-major as in Diligent's `float4x4`. -/
abbrev Mat4 := Fin 4 → Fin 4 → ℚ

/-- A row of four rationals. -/
def row4 (a b c d : ℚ) : Fin 4 → ℚ := ![a, b, c, d]

/-- Build a matrix from four rows. -/
def mat4 (r0 r1 r2 r3 : Fin 4 → ℚ) : Mat4 := ![r0, r1, r2, r3]

/-- Matrix product, `(A*B) i j = Σ_k A i k * B k j`, matching Diligent's
row-vector convention where `operator*` is plain matrix multiplication. -/
def matMul (A B : Mat4) : Mat4 := fun i j =>
  A i 0 * B 0 j + A i 1 * B 1 j + A i 2 * B 2 j + A i 3 * B 3 j

/-- Transpose, as `float4x4::Transpose`. -/
def Mat4.transpose (A : Mat4) : Mat4 := fun i j => A j i

/-- Identity matrix, as `float4x4::Identity`. -/
def matId : Mat4 := fun i j => if i = j then 1 else 0

/-- Rational-valued stand-ins for the float trigonometric values used by
the program: `cotHalfPi2` is the library's value of `1 / tan(M_PI_2 / 2)`
(the code only ever builds projections with `fov = M_PI_2`), and
`cosv`/`sinv` are the library's cosine and sine on the rotation angles. -/
structure Trig where
  cotHalfPi2 : ℚ
  cosv : ℚ → ℚ
  sinv : ℚ → ℚ

/-- Modelled from the spec: `Diligent::float4x4::RotationY` lives in
DiligentCore's BasicMath.hpp, which is not under src/.  Rotation about Y
for the row-vector convention, with the cosine and sine supplied. -/
def rotationY (c s : ℚ) : Mat4 :=
  mat4 (row4 c 0 (-s) 0) (row4 0 1 0 0) (row4 s 0 c 0) (row4 0 0 0 1)

/-- Modelled from the spec: `Diligent::float4x4::Translation` lives in
DiligentCore's BasicMath.hpp, which is not under src/.  Translation for
the row-vector convention (offsets in the last row). -/
def translationM (x y z : ℚ) : Mat4 :=
  mat4 (row4 1 0 0 0) (row4 0 1 0 0) (row4 0 0 1 0) (row4 x y z 1)

/-- Modelled from the spec: `Diligent::float4x4::Projection` lives in
DiligentCore's BasicMath.hpp, which is not under src/.  Perspective
projection whose aspect-derived term (entry 0,0) is `cot(fov/2)/aspect`,
with the z-range convention selected by `negOneToOneZ` (GL when true,
D3D when false), as the spec describes for `Session.resize`. -/
def Float4x4Projection (ctgHalfFov aspect zNear zFar : ℚ)
    (negOneToOneZ : Bool) : Mat4 :=
  mat4
    (row4 (ctgHalfFov / aspect) 0 0 0)
    (row4 0 ctgHalfFov 0 0)
    (if negOneToOneZ then row4 0 0 ((zFar + zNear) / (zFar - zNear)) 1
     else row4 0 0 (zFar / (zFar - zNear)) 1)
    (if negOneToOneZ then row4 0 0 (-(2 * zNear * zFar) / (zFar - zNear)) 0
     else row4 0 0 (-(zNear * zFar) / (zFar - zNear)) 0)

/-- The projection matrix the program builds for a given aspect ratio:
`float4x4::Projection(M_PI_2, aspect, 0.1f, 1000.f, false)`. -/
def projFromAspect (tr : Trig) (aspect : ℚ) : Mat4 :=
  Float4x4Projection tr.cotHalfPi2 aspect (1/10) 1000 false

/-- The model matrix recomputed each frame:
`RotationY(ticks / 500.f) * Translation(0, 0, 5)` (main.cpp line 392). -/
def modelMatrixOf (tr : Trig) (ticks : ℚ) : Mat4 :=
  matMul (rotationY (tr.cosv (ticks / 500)) (tr.sinv (ticks / 500)))
    (translationM 0 0 5)

/-- Index element type of a `DrawIndexed` call (`dg::VT_UINT32`). -/
inductive IndexType where
  | uint32
deriving DecidableEq

/-- One GPU-visible operation issued by the loop body, in program order. -/
inductive Action where
  | setRenderTargets
  | clearColor (r g b a : ℚ)
  | clearDepth (d : ℚ)
  | setVertexBuffers
  | setIndexBuffer
  | setPipelineState
  | mapWriteConstants (m : Mat4)
  | unmapConstants
  | commitShaderResources
  | drawIndexed (ty : IndexType) (numIndices : Nat)
  | draw (numVertices : Nat)
  | present (syncInterval : Int)

/-- The constructor kind of an `Action`, used for ordering and counting. -/
inductive ActionKind where
  | setRenderTargets
  | clearColor
  | clearDepth
  | setVertexBuffers
  | setIndexBuffer
  | setPipelineState
  | mapWriteConstants
  | unmapConstants
  | commitShaderResources
  | drawIndexed
  | draw
  | present
deriving DecidableEq

/-- Kind of an action (drops payloads). -/
def Action.kind : Action → ActionKind
  | .setRenderTargets => .setRenderTargets
  | .clearColor _ _ _ _ => .clearColor
  | .clearDepth _ => .clearDepth
  | .setVertexBuffers => .setVertexBuffers
  | .setIndexBuffer => .setIndexBuffer
  | .setPipelineState => .setPipelineState
  | .mapWriteConstants _ => .mapWriteConstants
  | .unmapConstants => .unmapConstants
  | .commitShaderResources => .commitShaderResources
  | .drawIndexed _ _ => .drawIndexed
  | .draw _ => .draw
  | .present _ => .present

/-- First index at which an action of kind `k` occurs. -/
def firstIdx (k : ActionKind) (ks : List ActionKind) : Nat :=
  ks.findIdx (fun a => a == k)

/-- The matrix stored in the constants buffer by the first map-write of an
action list, i.e. the value GPU-visible to the draw that follows. -/
def writtenConstants : List Action → Option Mat4
  | [] => none
  | .mapWriteConstants m :: _ => some m
  | _ :: rest => writtenConstants rest

/-- A window event delivered by `SDL_PollEvent`. -/
inductive Ev where
  | quit
  | resized (w h : Int)
  | other
deriving DecidableEq

/-- A vertex as uploaded: float3 position and float4 color. -/
abbrev Vertex := (ℚ × ℚ × ℚ) × (ℚ × ℚ × ℚ × ℚ)

/-- `CubeVerts` from main.cpp lines 293-304. -/
def CubeVerts : List Vertex :=
  [((-1, -1, -1), (1, 0, 0, 1)),
   ((-1,  1, -1), (0, 1, 0, 1)),
   (( 1,  1, -1), (0, 0, 1, 1)),
   (( 1, -1, -1), (1, 1, 1, 1)),
   ((-1, -1,  1), (1, 1, 0, 1)),
   ((-1,  1,  1), (0, 1, 1, 1)),
   (( 1,  1,  1), (1, 0, 1, 1)),
   (( 1, -1,  1), (1/5, 1/5, 1/5, 1))]

/-- `CubeIndices` from main.cpp lines 306-314. -/
def CubeIndices : List Nat :=
  [2, 0, 1, 2, 3, 0,
   4, 6, 5, 4, 7, 6,
   0, 7, 4, 0, 3, 7,
   1, 0, 4, 1, 4, 5,
   1, 5, 2, 5, 6, 2,
   3, 6, 7, 3, 2, 6]

/-- The file-scope globals of a running session, made explicit.  Handles
for externally created objects are opaque `Option Nat` values; `swapW`
and `swapH` are the swapchain's current reported dimensions. -/
structure AppState where
  m_projMatrix : Mat4
  m_viewMatrix : Mat4
  m_modelMatrix : Mat4
  constantsBuf : Mat4
  swapW : Int
  swapH : Int
  m_windowShouldClose : Bool
  m_pDeviceHandle : Option Nat
  m_pImmediateContextHandle : Option Nat
  m_pSwapChainHandle : Option Nat
  m_pPSOHandle : Option Nat
  m_pSRBHandle : Option Nat
  m_pVSConstantsHandle : Option Nat
  vertexBufferData : List Vertex
  indexBufferData : List Nat
  syncInterval : Int

/-- `OnResize` (main.cpp lines 184-187): recompute the projection matrix
from the new aspect ratio and resize the swapchain. -/
def OnResize (tr : Trig) (st : AppState) (width height : Int) : AppState :=
  { st with
    m_projMatrix := projFromAspect tr ((width : ℚ) / (height : ℚ)),
    swapW := width, swapH := height }

/-- One event of the cube variant's poll loop (main.cpp lines 350-372):
quit sets the close flag, resize events call `OnResize`, others ignored. -/
def cubeHandleEvent (tr : Trig) (st : AppState) : Ev → AppState
  | .quit => { st with m_windowShouldClose := true }
  | .resized w h => OnResize tr st w h
  | .other => st

/-- The cube variant's event poll: processes every pending event in order
(the cube variant's switch never leaves the poll loop early).  Returns the
state together with the events left unprocessed (always none here). -/
def processEventsCube (tr : Trig) : AppState → List Ev → AppState × List Ev
  | st, [] => (st, [])
  | st, e :: rest => processEventsCube tr (cubeHandleEvent tr st e) rest

/-- The triangle variant's event poll (second translation unit lines
287-294): only `SDL_QUIT` is handled, and its `break` leaves the poll
loop, so events queued after a quit are left unprocessed. -/
def processEventsTriangle : AppState → List Ev → AppState × List Ev
  | st, [] => (st, [])
  | st, Ev.quit :: rest => ({ st with m_windowShouldClose := true }, rest)
  | st, Ev.resized _ _ :: rest => processEventsTriangle st rest
  | st, Ev.other :: rest => processEventsTriangle st rest

/-- The cube variant's render step plus present (main.cpp lines 375-408):
bind targets, clear, bind buffers and pipeline, recompute the model matrix
from ticks, write the transposed combined matrix through the scoped map
(unmapped at scope exit), commit, issue one indexed draw, present. -/
def cubeRender (tr : Trig) (ticks : ℚ) (st : AppState) :
    AppState × List Action :=
  let newModel := matMul
    (rotationY (tr.cosv (ticks / 500)) (tr.sinv (ticks / 500)))
    (translationM 0 0 5)
  let written :=
    (matMul (matMul newModel st.m_viewMatrix) st.m_projMatrix).transpose
  ({ st with m_modelMatrix := newModel, constantsBuf := written },
   [Action.setRenderTargets,
    Action.clearColor (35/100) (35/100) (35/100) 1,
    Action.clearDepth 1,
    Action.setVertexBuffers,
    Action.setIndexBuffer,
    Action.setPipelineState,
    Action.mapWriteConstants written,
    Action.unmapConstants,
    Action.commitShaderResources,
    Action.drawIndexed IndexType.uint32 36,
    Action.present st.syncInterval])

/-- The triangle variant's render step plus present (second translation
unit lines 297-312): bind targets, clear, bind pipeline, one non-indexed
draw of 3 vertices, present (default sync interval 1). -/
def triangleRender (st : AppState) : AppState × List Action :=
  (st,
   [Action.setRenderTargets,
    Action.clearColor (35/100) (35/100) (35/100) 1,
    Action.clearDepth 1,
    Action.setPipelineState,
    Action.draw 3,
    Action.present 1])

/-- External inputs to one loop iteration: the tick counter value read by
`SDL_GetTicks` and the events `SDL_PollEvent` yields this iteration. -/
structure FrameInput where
  ticks : ℚ
  events : List Ev

/-- Record of one executed loop iteration: state after event processing
(just before the render step), the tick value, the actions issued, and
the state after the render step. -/
structure IterRec where
  pre : AppState
  ticks : ℚ
  acts : List Action
  post : AppState

/-- One full iteration of the cube variant's loop body: event poll, then
render and present on the drained state. -/
def cubeIter (tr : Trig) (f : FrameInput) (st : AppState) : IterRec :=
  let st1 := (processEventsCube tr st f.events).1
  ⟨st1, f.ticks, (cubeRender tr f.ticks st1).2, (cubeRender tr f.ticks st1).1⟩

/-- One full iteration of the triangle variant's loop body. -/
def triangleIter (f : FrameInput) (st : AppState) : IterRec :=
  let st1 := (processEventsTriangle st f.events).1
  ⟨st1, f.ticks, (triangleRender st1).2, (triangleRender st1).1⟩

/-- The cube variant's do-while frame loop (main.cpp lines 348-409):
each iteration polls events, renders and presents, then re-checks the
close flag at the loop boundary.  Returns `none` when the supplied frame
inputs run out before a quit (the loop would keep running), otherwise
the return code 0, the per-iteration records, and the final state. -/
def runCube (tr : Trig) :
    List FrameInput → AppState → Option (Int × List IterRec × AppState)
  | [], _ => none
  | f :: rest, st =>
    if (cubeIter tr f st).post.m_windowShouldClose then
      some (0, [cubeIter tr f st], (cubeIter tr f st).post)
    else
      match runCube tr rest (cubeIter tr f st).post with
      | none => none
      | some (c, recs, stF) => some (c, cubeIter tr f st :: recs, stF)

/-- The triangle variant's do-while frame loop (second translation unit
lines 284-313). -/
def runTriangle :
    List FrameInput → AppState → Option (Int × List IterRec × AppState)
  | [], _ => none
  | f :: rest, st =>
    if (triangleIter f st).post.m_windowShouldClose then
      some (0, [triangleIter f st], (triangleIter f st).post)
    else
      match runTriangle rest (triangleIter f st).post with
      | none => none
      | some (c, recs, stF) => some (c, triangleIter f st :: recs, stF)

/-- The iteration records of a loop result (empty when the loop did not
terminate within the supplied inputs). -/
def iterRecsOf : Option (Int × List IterRec × AppState) → List IterRec
  | none => []
  | some (_, recs, _) => recs

/-- The requested render device kind (`dg::RENDER_DEVICE_TYPE`), restricted
to the kinds the two variants mention. -/
inductive RENDER_DEVICE_TYPE where
  | D3D11
  | D3D12
  | GL
  | VULKAN
deriving DecidableEq

/-- The session globals `m_pDevice` / `m_pImmediateContext` / `m_pSwapChain`
populated by `InitializeGraphicsEngine`; handles are opaque. -/
structure GfxSession where
  m_pDevice : Option Nat
  m_pImmediateContext : Option Nat
  m_pSwapChain : Option Nat
deriving DecidableEq

/-- The empty session globals before initialization. -/
def emptyGfxSession : GfxSession := ⟨none, none, none⟩

/-- Abstract outcome of the backend factory calls that are external
collaborators: whether the device-and-contexts creation call succeeds,
whether the swapchain creation call succeeds, and whether the OpenGL
combined device-and-swapchain creation call succeeds.  Per the spec's
error taxonomy, a failing creation is a thrown `BackendInitFailure`,
modelled as an `Except.error`; on a failing call its own output pointers
stay empty. -/
structure GfxEnv where
  createDeviceOk : Bool
  createSwapChainOk : Bool
  createGLOk : Bool
deriving DecidableEq

/-- `true` on `Except.ok`. -/
def isOkB : Except String Unit → Bool
  | .ok _ => true
  | .error _ => false

/-- `InitializeGraphicsEngine` of the cube variant (main.cpp lines
114-181): the switch over device kinds.  D3D11 and D3D12 exist only on
Win32 builds; there is no GL case, so GL falls to the default and throws
"Unsupported render device type".  Each supported case populates the
device and immediate context first and the swapchain second; the function
returns the error-or-ok outcome together with the resulting globals
(which keep whatever the creation calls populated before a failure). -/
def InitializeGraphicsEngine (env : GfxEnv) (win32 : Bool) (g : GfxSession) :
    RENDER_DEVICE_TYPE → Except String Unit × GfxSession
  | .D3D11 =>
    if win32 then
      if env.createDeviceOk then
        let g1 : GfxSession :=
          { g with m_pDevice := some 0, m_pImmediateContext := some 1 }
        if env.createSwapChainOk then
          (Except.ok (), { g1 with m_pSwapChain := some 2 })
        else (Except.error "BackendInitFailure: CreateSwapChainD3D11", g1)
      else (Except.error "BackendInitFailure: CreateDeviceAndContextsD3D11", g)
    else (Except.error "Unsupported render device type", g)
  | .D3D12 =>
    if win32 then
      if env.createDeviceOk then
        let g1 : GfxSession :=
          { g with m_pDevice := some 0, m_pImmediateContext := some 1 }
        if env.createSwapChainOk then
          (Except.ok (), { g1 with m_pSwapChain := some 2 })
        else (Except.error "BackendInitFailure: CreateSwapChainD3D12", g1)
      else (Except.error "BackendInitFailure: CreateDeviceAndContextsD3D12", g)
    else (Except.error "Unsupported render device type", g)
  | .VULKAN =>
    if env.createDeviceOk then
      let g1 : GfxSession :=
        { g with m_pDevice := some 0, m_pImmediateContext := some 1 }
      if env.createSwapChainOk then
        (Except.ok (), { g1 with m_pSwapChain := some 2 })
      else (Except.error "BackendInitFailure: CreateSwapChainVk", g1)
    else (Except.error "BackendInitFailure: CreateDeviceAndContextsVk", g)
  | .GL => (Except.error "Unsupported render device type", g)

/-- `InitializeGraphicsEngine` of the triangle variant (second translation
unit lines 99-186): same switch, plus a GL case whose single
`CreateDeviceAndSwapChainGL` call populates all three globals at once. -/
def InitializeGraphicsEngineTri (env : GfxEnv) (win32 : Bool)
    (g : GfxSession) : RENDER_DEVICE_TYPE → Except String Unit × GfxSession
  | .D3D11 => InitializeGraphicsEngine env win32 g .D3D11
  | .D3D12 => InitializeGraphicsEngine env win32 g .D3D12
  | .VULKAN => InitializeGraphicsEngine env win32 g .VULKAN
  | .GL =>
    if env.createGLOk then
      (Except.ok (),
       { g with m_pDevice := some 0, m_pImmediateContext := some 1,
                m_pSwapChain := some 2 })
    else (Except.error "BackendInitFailure: CreateDeviceAndSwapChainGL", g)

/-- All three session globals are populated. -/
def allPopulated (g : GfxSession) : Bool :=
  g.m_pDevice.isSome && g.m_pImmediateContext.isSome && g.m_pSwapChain.isSome

/-- Exactly the device and immediate context are populated (the partial
state left behind when swapchain creation fails after device creation). -/
def partialDevCtx (g : GfxSession) : Bool :=
  g.m_pDevice.isSome && g.m_pImmediateContext.isSome && g.m_pSwapChain.isNone

/-- State of the globals when the cube variant's frame loop starts
(main.cpp lines 198-345): 1920×1080 windowed mode with sync interval 1,
projection built for aspect `16.f/9.f`, identity view and model, cube
geometry uploaded, PSO/SRB/constants created. -/
def initCubeState (tr : Trig) (g : GfxSession) : AppState :=
  { m_projMatrix := projFromAspect tr (16/9),
    m_viewMatrix := matId,
    m_modelMatrix := matId,
    constantsBuf := fun _ _ => 0,
    swapW := 1920, swapH := 1080,
    m_windowShouldClose := false,
    m_pDeviceHandle := g.m_pDevice,
    m_pImmediateContextHandle := g.m_pImmediateContext,
    m_pSwapChainHandle := g.m_pSwapChain,
    m_pPSOHandle := some 3,
    m_pSRBHandle := some 4,
    m_pVSConstantsHandle := some 5,
    vertexBufferData := CubeVerts,
    indexBufferData := CubeIndices,
    syncInterval := 1 }

/-- State of the globals when the triangle variant's frame loop starts
(second translation unit lines 199-281): 1280×720 windowed mode; the
triangle variant keeps no transform matrices, SRB or constants buffer and
uploads no geometry (vertices are generated in the shader). -/
def initTriangleState (g : GfxSession) : AppState :=
  { m_projMatrix := matId,
    m_viewMatrix := matId,
    m_modelMatrix := matId,
    constantsBuf := fun _ _ => 0,
    swapW := 1280, swapH := 720,
    m_windowShouldClose := false,
    m_pDeviceHandle := g.m_pDevice,
    m_pImmediateContextHandle := g.m_pImmediateContext,
    m_pSwapChainHandle := g.m_pSwapChain,
    m_pPSOHandle := some 3,
    m_pSRBHandle := none,
    m_pVSConstantsHandle := none,
    vertexBufferData := [],
    indexBufferData := [],
    syncInterval := 1 }

/-- External inputs to a whole run of the cube variant's `main`: whether
`SDL_Init` succeeds, whether `SDL_CreateWindow` succeeds, the backend
factory outcomes, whether this is a Win32 build, and the frame inputs. -/
structure MainEnv where
  sdlInitOk : Bool
  windowOk : Bool
  gfx : GfxEnv
  win32 : Bool
  frames : List FrameInput

/-- `main` of the cube variant (main.cpp lines 189-412): returns -1 when
`SDL_Init` fails, -3 when window creation fails, -5 when
`InitializeGraphicsEngine(videoMode, RENDER_DEVICE_TYPE_D3D11)` throws,
otherwise the frame loop's return code (`none` when the supplied frame
inputs end before a quit event). -/
def mainCube (tr : Trig) (env : MainEnv) : Option Int :=
  if env.sdlInitOk = false then some (-1)
  else if env.windowOk = false then some (-3)
  else
    match InitializeGraphicsEngine env.gfx env.win32 emptyGfxSession .D3D11 with
    | (.error _, _) => some (-5)
    | (.ok _, g) =>
      (runCube tr env.frames (initCubeState tr g)).map (fun p => p.1)

/-- The sequence of action kinds every cube-variant iteration issues. -/
def cubeKinds : List ActionKind :=
  [.setRenderTargets, .clearColor, .clearDepth, .setVertexBuffers,
   .setIndexBuffer, .setPipelineState, .mapWriteConstants, .unmapConstants,
   .commitShaderResources, .drawIndexed, .present]

/-- The sequence of action kinds every triangle-variant iteration issues. -/
def triangleKinds : List ActionKind :=
  [.setRenderTargets, .clearColor, .clearDepth, .setPipelineState,
   .draw, .present]

/-- The per-frame invariant linking the stored projection matrix to the
current swapchain dimensions, with the view matrix fixed at identity. -/
def ProjViewInv (tr : Trig) (st : AppState) : Prop :=
  st.m_projMatrix = projFromAspect tr ((st.swapW : ℚ) / (st.swapH : ℚ)) ∧
  st.m_viewMatrix = matId

/-- A concrete instantiation of the trigonometric stand-ins, used to
evaluate the development on explicit inputs. -/
def trW : Trig := ⟨1, fun _ => 1, fun _ => 0⟩

/-- A concrete fully populated session, used to evaluate the development
on explicit inputs. -/
def gsW : GfxSession := ⟨some 0, some 1, some 2⟩

lemma cubeRender_kinds (tr : Trig) (t : ℚ) (st : AppState) :
    (cubeRender tr t st).2.map Action.kind = cubeKinds := rfl

lemma triangleRender_kinds (st : AppState) :
    (triangleRender st).2.map Action.kind = triangleKinds := rfl

lemma cubeIter_kinds (tr : Trig) (f : FrameInput) (st : AppState) :
    (cubeIter tr f st).acts.map Action.kind = cubeKinds := rfl

lemma triangleIter_kinds (f : FrameInput) (st : AppState) :
    (triangleIter f st).acts.map Action.kind = triangleKinds := rfl

lemma processCube_flag_mono (tr : Trig) (evs : List Ev) :
    ∀ st : AppState, st.m_windowShouldClose = true →
      ((processEventsCube tr st evs).1).m_windowShouldClose = true := by
  induction evs with
  | nil => intro st h; exact h
  | cons e rest ih =>
    intro st h
    cases e with
    | quit => exact ih _ rfl
    | resized w h2 => exact ih _ h
    | other => exact ih _ h

lemma processCube_flag_of_quit (tr : Trig) (evs : List Ev) :
    ∀ st : AppState, Ev.quit ∈ evs →
      ((processEventsCube tr st evs).1).m_windowShouldClose = true := by
  induction evs with
  | nil => intro st h; cases h
  | cons e rest ih =>
    intro st h
    cases e with
    | quit => exact processCube_flag_mono tr rest _ rfl
    | resized w h2 =>
      cases h with
      | tail _ hm => exact ih _ hm
    | other =>
      cases h with
      | tail _ hm => exact ih _ hm

lemma processCube_flag_of_no_quit (tr : Trig) (evs : List Ev) :
    ∀ st : AppState, Ev.quit ∉ evs →
      ((processEventsCube tr st evs).1).m_windowShouldClose =
        st.m_windowShouldClose := by
  induction evs with
  | nil => intro st _; rfl
  | cons e rest ih =>
    intro st h
    cases e with
    | quit => exact absurd (List.Mem.head _) h
    | resized w h2 => exact ih _ (fun hm => h (List.Mem.tail _ hm))
    | other => exact ih _ (fun hm => h (List.Mem.tail _ hm))

lemma processTriangle_of_no_quit (evs : List Ev) :
    ∀ st : AppState, Ev.quit ∉ evs → (processEventsTriangle st evs).1 = st := by
  induction evs with
  | nil => intro st _; rfl
  | cons e rest ih =>
    intro st h
    cases e with
    | quit => exact absurd (List.Mem.head _) h
    | resized w h2 => exact ih _ (fun hm => h (List.Mem.tail _ hm))
    | other => exact ih _ (fun hm => h (List.Mem.tail _ hm))

lemma processTriangle_of_quit (evs : List Ev) :
    ∀ st : AppState, Ev.quit ∈ evs →
      (processEventsTriangle st evs).1 =
        { st with m_windowShouldClose := true } := by
  induction evs with
  | nil => intro st h; cases h
  | cons e rest ih =>
    intro st h
    cases e with
    | quit => rfl
    | resized w h2 =>
      cases h with
      | tail _ hm => exact ih _ hm
    | other =>
      cases h with
      | tail _ hm => exact ih _ hm

lemma cubeRender_flag (tr : Trig) (t : ℚ) (st : AppState) :
    ((cubeRender tr t st).1).m_windowShouldClose = st.m_windowShouldClose :=
  rfl

lemma cubeRender_model (tr : Trig) (t : ℚ) (st : AppState) :
    ((cubeRender tr t st).1).m_modelMatrix = modelMatrixOf tr t := rfl

lemma cubeIter_flag_of_quit (tr : Trig) (f : FrameInput) (st : AppState)
    (h : Ev.quit ∈ f.events) :
    (cubeIter tr f st).post.m_windowShouldClose = true :=
  processCube_flag_of_quit tr f.events st h

lemma cubeIter_flag_of_no_quit (tr : Trig) (f : FrameInput) (st : AppState)
    (h : Ev.quit ∉ f.events) :
    (cubeIter tr f st).post.m_windowShouldClose = st.m_windowShouldClose :=
  processCube_flag_of_no_quit tr f.events st h

lemma triangleIter_flag_of_quit (f : FrameInput) (st : AppState)
    (h : Ev.quit ∈ f.events) :
    (triangleIter f st).post.m_windowShouldClose = true := by
  show ((processEventsTriangle st f.events).1).m_windowShouldClose = true
  rw [processTriangle_of_quit f.events st h]

lemma triangleIter_flag_of_no_quit (f : FrameInput) (st : AppState)
    (h : Ev.quit ∉ f.events) :
    (triangleIter f st).post.m_windowShouldClose = st.m_windowShouldClose := by
  show ((processEventsTriangle st f.events).1).m_windowShouldClose = _
  rw [processTriangle_of_no_quit f.events st h]

lemma runCube_cons (tr : Trig) (f : FrameInput) (rest : List FrameInput)
    (st : AppState) :
    runCube tr (f :: rest) st =
      if (cubeIter tr f st).post.m_windowShouldClose then
        some (0, [cubeIter tr f st], (cubeIter tr f st).post)
      else
        match runCube tr rest (cubeIter tr f st).post with
        | none => none
        | some (c, recs, stF) => some (c, cubeIter tr f st :: recs, stF) :=
  rfl

lemma runTriangle_cons (f : FrameInput) (rest : List FrameInput)
    (st : AppState) :
    runTriangle (f :: rest) st =
      if (triangleIter f st).post.m_windowShouldClose then
        some (0, [triangleIter f st], (triangleIter f st).post)
      else
        match runTriangle rest (triangleIter f st).post with
        | none => none
        | some (c, recs, stF) => some (c, triangleIter f st :: recs, stF) :=
  rfl

lemma runCube_quit (tr : Trig) (f : FrameInput) (rest : List FrameInput)
    (hf : Ev.quit ∈ f.events) :
    ∀ pre : List FrameInput, ∀ st : AppState,
      (∀ g ∈ pre, Ev.quit ∉ g.events) → st.m_windowShouldClose = false →
      ∃ recs stF, runCube tr (pre ++ f :: rest) st = some (0, recs, stF) ∧
        recs.length = pre.length + 1 ∧
        ∀ r ∈ recs, r.acts.map Action.kind = cubeKinds := by
  intro pre
  induction pre with
  | nil =>
    intro st _ _
    refine ⟨[cubeIter tr f st], (cubeIter tr f st).post, ?_, rfl, ?_⟩
    · rw [List.nil_append, runCube_cons, if_pos (cubeIter_flag_of_quit tr f st hf)]
    · intro r hr
      cases hr with
      | head => exact cubeIter_kinds tr f st
      | tail _ h => cases h
  | cons g pre' ih =>
    intro st hpre hst
    have hg : Ev.quit ∉ g.events := hpre g (List.Mem.head _)
    have hflag : (cubeIter tr g st).post.m_windowShouldClose = false := by
      rw [cubeIter_flag_of_no_quit tr g st hg]; exact hst
    obtain ⟨recs, stF, hrun, hlen, hks⟩ :=
      ih (cubeIter tr g st).post
        (fun x hx => hpre x (List.Mem.tail _ hx)) hflag
    refine ⟨cubeIter tr g st :: recs, stF, ?_, ?_, ?_⟩
    · rw [List.cons_append, runCube_cons, if_neg (by simp [hflag]), hrun]
    · simp [hlen]
    · intro r hr
      cases hr with
      | head => exact cubeIter_kinds tr g st
      | tail _ h => exact hks r h

lemma runTriangle_quit (f : FrameInput) (rest : List FrameInput)
    (hf : Ev.quit ∈ f.events) :
    ∀ pre : List FrameInput, ∀ st : AppState,
      (∀ g ∈ pre, Ev.quit ∉ g.events) → st.m_windowShouldClose = false →
      ∃ recs stF, runTriangle (pre ++ f :: rest) st = some (0, recs, stF) ∧
        recs.length = pre.length + 1 ∧
        ∀ r ∈ recs, r.acts.map Action.kind = triangleKinds := by
  intro pre
  induction pre with
  | nil =>
    intro st _ _
    refine ⟨[triangleIter f st], (triangleIter f st).post, ?_, rfl, ?_⟩
    · rw [List.nil_append, runTriangle_cons,
        if_pos (triangleIter_flag_of_quit f st hf)]
    · intro r hr
      cases hr with
      | head => exact triangleIter_kinds f st
      | tail _ h => cases h
  | cons g pre' ih =>
    intro st hpre hst
    have hg : Ev.quit ∉ g.events := hpre g (List.Mem.head _)
    have hflag : (triangleIter g st).post.m_windowShouldClose = false := by
      rw [triangleIter_flag_of_no_quit g st hg]; exact hst
    obtain ⟨recs, stF, hrun, hlen, hks⟩ :=
      ih (triangleIter g st).post
        (fun x hx => hpre x (List.Mem.tail _ hx)) hflag
    refine ⟨triangleIter g st :: recs, stF, ?_, ?_, ?_⟩
    · rw [List.cons_append, runTriangle_cons, if_neg (by simp [hflag]), hrun]
    · simp [hlen]
    · intro r hr
      cases hr with
      | head => exact triangleIter_kinds g st
      | tail _ h => exact hks r h

lemma processCube_leftover (tr : Trig) (evs : List Ev) :
    ∀ st : AppState, (processEventsCube tr st evs).2 = [] := by
  induction evs with
  | nil => intro st; rfl
  | cons e rest ih => intro st; exact ih _

lemma processCube_foldl (tr : Trig) (evs : List Ev) :
    ∀ st : AppState,
      (processEventsCube tr st evs).1 = evs.foldl (cubeHandleEvent tr) st := by
  induction evs with
  | nil => intro st; rfl
  | cons e rest ih => intro st; exact ih _

lemma projViewInv_init (tr : Trig) (g : GfxSession) :
    ProjViewInv tr (initCubeState tr g) := by
  constructor
  · show projFromAspect tr (16/9) =
      projFromAspect tr (((1920 : Int) : ℚ) / ((1080 : Int) : ℚ))
    norm_num
  · rfl

lemma cubeHandle_inv (tr : Trig) (st : AppState) (e : Ev)
    (h : ProjViewInv tr st) : ProjViewInv tr (cubeHandleEvent tr st e) := by
  cases e with
  | quit => exact h
  | resized w h2 => exact ⟨rfl, h.2⟩
  | other => exact h

lemma processCube_inv (tr : Trig) (evs : List Ev) :
    ∀ st : AppState, ProjViewInv tr st →
      ProjViewInv tr ((processEventsCube tr st evs).1) := by
  induction evs with
  | nil => intro st h; exact h
  | cons e rest ih => intro st h; exact ih _ (cubeHandle_inv tr st e h)

lemma cubeRender_inv (tr : Trig) (t : ℚ) (st : AppState)
    (h : ProjViewInv tr st) : ProjViewInv tr ((cubeRender tr t st).1) := h

lemma cubeIter_inv (tr : Trig) (f : FrameInput) (st : AppState)
    (h : ProjViewInv tr st) : ProjViewInv tr (cubeIter tr f st).post :=
  cubeRender_inv tr f.ticks _ (processCube_inv tr f.events st h)

lemma cubeIter_pre_inv (tr : Trig) (f : FrameInput) (st : AppState)
    (h : ProjViewInv tr st) : ProjViewInv tr (cubeIter tr f st).pre :=
  processCube_inv tr f.events st h

/-- C3: in every frame of the cube variant, the matrix written through the
mapped constants buffer — the value GPU-visible to the draw that follows —
is the transpose of the combined model×view×projection matrix computed
that frame (with the model matrix freshly recomputed from the frame's
ticks); and every iteration record of any run carries exactly the render
step's actions and post-state, so the equality holds in every iteration of
every run. -/
theorem constants_write_is_transposed_mvp (tr : Trig) (t : ℚ)
    (st st0 : AppState) (frames : List FrameInput) :
    writtenConstants (cubeRender tr t st).2 =
      some ((matMul (matMul (modelMatrixOf tr t) st.m_viewMatrix)
        st.m_projMatrix).transpose) ∧
    ((cubeRender tr t st).1).constantsBuf =
      (matMul (matMul (modelMatrixOf tr t) st.m_viewMatrix)
        st.m_projMatrix).transpose ∧
    (iterRecsOf (runCube tr frames st0)).Forall (fun r =>
      r.acts = (cubeRender tr r.ticks r.pre).2 ∧
      r.post = (cubeRender tr r.ticks r.pre).1) := by
  refine ⟨rfl, rfl, ?_⟩
  induction frames generalizing st0 with
  | nil => exact trivial
  | cons f rest ih =>
    rw [runCube_cons]
    by_cases hfl : (cubeIter tr f st0).post.m_windowShouldClose = true
    · rw [if_pos hfl]
      exact ⟨rfl, rfl⟩
    · rw [if_neg hfl]
      cases hrun : runCube tr rest (cubeIter tr f st0).post with
      | none => exact trivial
      | some p =>
        obtain ⟨c, recs, stF⟩ := p
        have h2 := ih (cubeIter tr f st0).post
        rw [hrun] at h2
        show List.Forall _ (cubeIter tr f st0 :: recs)
        rw [List.forall_cons]
        exact ⟨⟨rfl, rfl⟩, h2⟩

/-- C4: in every iteration of either variant's render step, the
render-target/depth-target binding precedes the color and depth clears,
the clears precede the draw call, and (in the cube variant) the
constants-buffer map-write and its scope-exit unmap precede the draw call
that reads it; the order is the fixed linear sequence of the loop body. -/
theorem render_step_ordering (tr : Trig) (t : ℚ) (st st' : AppState) :
    (ActionKind.setRenderTargets ∈ (cubeRender tr t st).2.map Action.kind ∧
     ActionKind.drawIndexed ∈ (cubeRender tr t st).2.map Action.kind ∧
     firstIdx .setRenderTargets ((cubeRender tr t st).2.map Action.kind) <
       firstIdx .clearColor ((cubeRender tr t st).2.map Action.kind) ∧
     firstIdx .setRenderTargets ((cubeRender tr t st).2.map Action.kind) <
       firstIdx .clearDepth ((cubeRender tr t st).2.map Action.kind) ∧
     firstIdx .clearColor ((cubeRender tr t st).2.map Action.kind) <
       firstIdx .drawIndexed ((cubeRender tr t st).2.map Action.kind) ∧
     firstIdx .clearDepth ((cubeRender tr t st).2.map Action.kind) <
       firstIdx .drawIndexed ((cubeRender tr t st).2.map Action.kind) ∧
     firstIdx .mapWriteConstants ((cubeRender tr t st).2.map Action.kind) <
       firstIdx .unmapConstants ((cubeRender tr t st).2.map Action.kind) ∧
     firstIdx .unmapConstants ((cubeRender tr t st).2.map Action.kind) <
       firstIdx .drawIndexed ((cubeRender tr t st).2.map Action.kind)) ∧
    (ActionKind.setRenderTargets ∈ (triangleRender st').2.map Action.kind ∧
     ActionKind.draw ∈ (triangleRender st').2.map Action.kind ∧
     firstIdx .setRenderTargets ((triangleRender st').2.map Action.kind) <
       firstIdx .clearColor ((triangleRender st').2.map Action.kind) ∧
     firstIdx .setRenderTargets ((triangleRender st').2.map Action.kind) <
       firstIdx .clearDepth ((triangleRender st').2.map Action.kind) ∧
     firstIdx .clearColor ((triangleRender st').2.map Action.kind) <
       firstIdx .draw ((triangleRender st').2.map Action.kind) ∧
     firstIdx .clearDepth ((triangleRender st').2.map Action.kind) <
       firstIdx .draw ((triangleRender st').2.map Action.kind)) := by
  rw [cubeRender_kinds, triangleRender_kinds]
  decide

/-- C5: each iteration of the render step issues exactly one draw call,
and its element count matches the uploaded geometry: the cube variant
issues one `DrawIndexed` with `NumIndices = 36` and index type uint32,
where 36 is the length of the uploaded `CubeIndices` buffer; the triangle
variant issues one non-indexed `Draw` with `NumVertices = 3`. -/
theorem draw_call_invariant (tr : Trig) (t : ℚ) (st st' : AppState)
    (g : GfxSession) :
    ((cubeRender tr t st).2.map Action.kind).count .drawIndexed = 1 ∧
    ((cubeRender tr t st).2.map Action.kind).count .draw = 0 ∧
    Action.drawIndexed IndexType.uint32 36 ∈ (cubeRender tr t st).2 ∧
    CubeIndices.length = 36 ∧
    (initCubeState tr g).indexBufferData = CubeIndices ∧
    ((triangleRender st').2.map Action.kind).count .draw = 1 ∧
    ((triangleRender st').2.map Action.kind).count .drawIndexed = 0 ∧
    Action.draw 3 ∈ (triangleRender st').2 := by
  rw [cubeRender_kinds, triangleRender_kinds]
  refine ⟨by decide, by decide, ?_, by decide, rfl, by decide, by decide, ?_⟩
  · simp [cubeRender]
  · simp [triangleRender]

/-- C7: resize is idempotent — calling `OnResize` twice with the same
width and height yields the same state as calling it once, leaves the
swapchain's reported dimensions at (w, h), and in particular the
projection matrix's aspect-derived term (entry 0,0) is equal after the
first and after the second call. -/
theorem resize_idempotent (tr : Trig) (st : AppState) (w h : Int) :
    OnResize tr (OnResize tr st w h) w h = OnResize tr st w h ∧
    (OnResize tr st w h).swapW = w ∧
    (OnResize tr st w h).swapH = h ∧
    (OnResize tr (OnResize tr st w h) w h).m_projMatrix 0 0 =
      (OnResize tr st w h).m_projMatrix 0 0 :=
  ⟨rfl, rfl, rfl, rfl⟩

/-- C10: a resize modifies only the projection matrix and the swapchain
dimensions — the view matrix, model matrix, constants-buffer contents,
close flag, device, immediate context, swapchain identity, pipeline
state, shader resource binding, constants-buffer handle, vertex/index
buffer data, and sync interval are all unchanged by `OnResize`. -/
theorem resize_frame_condition (tr : Trig) (st : AppState) (w h : Int) :
    (OnResize tr st w h).m_viewMatrix = st.m_viewMatrix ∧
    (OnResize tr st w h).m_modelMatrix = st.m_modelMatrix ∧
    (OnResize tr st w h).constantsBuf = st.constantsBuf ∧
    (OnResize tr st w h).m_windowShouldClose = st.m_windowShouldClose ∧
    (OnResize tr st w h).m_pDeviceHandle = st.m_pDeviceHandle ∧
    (OnResize tr st w h).m_pImmediateContextHandle =
      st.m_pImmediateContextHandle ∧
    (OnResize tr st w h).m_pSwapChainHandle = st.m_pSwapChainHandle ∧
    (OnResize tr st w h).m_pPSOHandle = st.m_pPSOHandle ∧
    (OnResize tr st w h).m_pSRBHandle = st.m_pSRBHandle ∧
    (OnResize tr st w h).m_pVSConstantsHandle = st.m_pVSConstantsHandle ∧
    (OnResize tr st w h).vertexBufferData = st.vertexBufferData ∧
    (OnResize tr st w h).indexBufferData = st.indexBufferData ∧
    (OnResize tr st w h).syncInterval = st.syncInterval :=
  ⟨rfl, rfl, rfl, rfl, rfl, rfl, rfl, rfl, rfl, rfl, rfl, rfl, rfl⟩

/-- C2: once a quit event is observed during event processing, the frame
loop (in either variant) completes the current iteration's full
render+present cycle and then exits with status 0; with quit-free
iterations before it, the loop runs exactly those iterations plus the one
that observes quit, each issuing one present and one draw, so at most one
more render+present cycle follows the quit observation. -/
theorem frame_loop_quit_terminates (tr : Trig) (pre : List FrameInput)
    (f : FrameInput) (rest : List FrameInput) (st st' : AppState)
    (hpre : ∀ g ∈ pre, Ev.quit ∉ g.events) (hf : Ev.quit ∈ f.events)
    (hst : st.m_windowShouldClose = false)
    (hst' : st'.m_windowShouldClose = false) :
    (∃ recs stF, runCube tr (pre ++ f :: rest) st = some (0, recs, stF) ∧
      recs.length = pre.length + 1 ∧
      ∀ r ∈ recs, (r.acts.map Action.kind).count .present = 1 ∧
        (r.acts.map Action.kind).count .drawIndexed = 1) ∧
    (∃ recs stF, runTriangle (pre ++ f :: rest) st' = some (0, recs, stF) ∧
      recs.length = pre.length + 1 ∧
      ∀ r ∈ recs, (r.acts.map Action.kind).count .present = 1 ∧
        (r.acts.map Action.kind).count .draw = 1) := by
  constructor
  · obtain ⟨recs, stF, h1, h2, h3⟩ := runCube_quit tr f rest hf pre st hpre hst
    refine ⟨recs, stF, h1, h2, fun r hr => ?_⟩
    rw [h3 r hr]
    exact ⟨by decide, by decide⟩
  · obtain ⟨recs, stF, h1, h2, h3⟩ := runTriangle_quit f rest hf pre st' hpre hst'
    refine ⟨recs, stF, h1, h2, fun r hr => ?_⟩
    rw [h3 r hr]
    exact ⟨by decide, by decide⟩

/-- C2 witness: at a concrete run whose first frame delivers the quit
event, both loops exit after exactly that one render+present cycle with
status 0. -/
theorem frame_loop_quit_terminates_witness :
    Ev.quit ∈ (FrameInput.mk 0 [Ev.quit]).events ∧
    (initCubeState trW gsW).m_windowShouldClose = false ∧
    (initTriangleState gsW).m_windowShouldClose = false ∧
    ((∃ recs stF,
        runCube trW ([] ++ FrameInput.mk 0 [Ev.quit] :: [])
          (initCubeState trW gsW) = some (0, recs, stF) ∧
        recs.length = ([] : List FrameInput).length + 1 ∧
        ∀ r ∈ recs, (r.acts.map Action.kind).count .present = 1 ∧
          (r.acts.map Action.kind).count .drawIndexed = 1) ∧
     (∃ recs stF,
        runTriangle ([] ++ FrameInput.mk 0 [Ev.quit] :: [])
          (initTriangleState gsW) = some (0, recs, stF) ∧
        recs.length = ([] : List FrameInput).length + 1 ∧
        ∀ r ∈ recs, (r.acts.map Action.kind).count .present = 1 ∧
          (r.acts.map Action.kind).count .draw = 1)) :=
  ⟨by decide, rfl, rfl,
   frame_loop_quit_terminates trW [] (FrameInput.mk 0 [Ev.quit]) []
     (initCubeState trW gsW) (initTriangleState gsW)
     (by simp) (by decide) rfl rfl⟩

/-- C6: in every frame of any cube-variant run started in a state
satisfying the projection/view invariant (as the real initial state does,
see `projViewInv_init`), the projection matrix used by the render step
equals the one computed from the current window aspect ratio, the view
matrix is the identity before and after the render step, and the model
matrix is recomputed that frame from the frame's elapsed-time ticks. -/
theorem matrices_per_frame (tr : Trig) (frames : List FrameInput)
    (st0 : AppState) (hinv : ProjViewInv tr st0) :
    ∀ r ∈ iterRecsOf (runCube tr frames st0),
      r.pre.m_viewMatrix = matId ∧
      r.post.m_viewMatrix = matId ∧
      r.pre.m_projMatrix =
        projFromAspect tr ((r.pre.swapW : ℚ) / (r.pre.swapH : ℚ)) ∧
      r.post.m_modelMatrix = modelMatrixOf tr r.ticks := by
  induction frames generalizing st0 with
  | nil => intro r hr; cases hr
  | cons f rest ih =>
    intro r hr
    rw [runCube_cons] at hr
    by_cases hfl : (cubeIter tr f st0).post.m_windowShouldClose = true
    · rw [if_pos hfl] at hr
      cases hr with
      | head =>
        exact ⟨(cubeIter_pre_inv tr f st0 hinv).2,
          (cubeIter_inv tr f st0 hinv).2,
          (cubeIter_pre_inv tr f st0 hinv).1, rfl⟩
      | tail _ h => cases h
    · rw [if_neg hfl] at hr
      cases hrun : runCube tr rest (cubeIter tr f st0).post with
      | none => rw [hrun] at hr; cases hr
      | some p =>
        obtain ⟨c, recs, stF⟩ := p
        rw [hrun] at hr
        cases hr with
        | head =>
          exact ⟨(cubeIter_pre_inv tr f st0 hinv).2,
            (cubeIter_inv tr f st0 hinv).2,
            (cubeIter_pre_inv tr f st0 hinv).1, rfl⟩
        | tail _ h =>
          have h2 := ih (cubeIter tr f st0).post (cubeIter_inv tr f st0 hinv)
          rw [hrun] at h2
          exact h2 r h

/-- C6 witness: the invariant holds at the real initial state, and the
per-frame matrix facts hold along a concrete one-frame run. -/
theorem matrices_per_frame_witness :
    ProjViewInv trW (initCubeState trW gsW) ∧
    ∀ r ∈ iterRecsOf (runCube trW [FrameInput.mk 0 [Ev.quit]]
        (initCubeState trW gsW)),
      r.pre.m_viewMatrix = matId ∧
      r.post.m_viewMatrix = matId ∧
      r.pre.m_projMatrix =
        projFromAspect trW ((r.pre.swapW : ℚ) / (r.pre.swapH : ℚ)) ∧
      r.post.m_modelMatrix = modelMatrixOf trW r.ticks :=
  ⟨projViewInv_init trW gsW,
   matrices_per_frame trW [FrameInput.mk 0 [Ev.quit]]
     (initCubeState trW gsW) (projViewInv_init trW gsW)⟩

/-- C8 counterexample: in the triangle variant the claim fails at a
concrete input — a quit event leaves later pending events unprocessed
(the poll loop breaks), and a resize event does not trigger any session
resize within the iteration: the swapchain dimensions stay 1280×720
instead of becoming 800×600. -/
theorem event_drain_resize_cex :
    (processEventsTriangle (initTriangleState gsW) [Ev.quit, Ev.other]).2 =
      [Ev.other] ∧
    ¬ (processEventsTriangle (initTriangleState gsW)
        [Ev.quit, Ev.other]).2 = ([] : List Ev) ∧
    ((processEventsTriangle (initTriangleState gsW)
        [Ev.resized 800 600]).1).swapW = 1280 ∧
    ((processEventsTriangle (initTriangleState gsW)
        [Ev.resized 800 600]).1).swapH = 720 ∧
    ¬ ((processEventsTriangle (initTriangleState gsW)
        [Ev.resized 800 600]).1).swapW = 800 :=
  ⟨rfl, by decide, rfl, rfl, by decide⟩

/-- C8 (amended): in the cube variant every iteration drains all pending
events without blocking — the poll leaves no event unprocessed and folds
the per-event handler over the whole queue in order — and a resize event
is handled by `OnResize` (projection recompute plus swapchain resize)
synchronously inside event processing, which the loop body runs before
the render step; in the triangle variant the poll stops at the first quit
event, leaving the remaining events pending, and resize events are
ignored entirely. -/
theorem event_drain_and_resize (tr : Trig) (st : AppState) (evs : List Ev)
    (w h : Int) (rest : List Ev) :
    (processEventsCube tr st evs).2 = [] ∧
    (processEventsCube tr st evs).1 = evs.foldl (cubeHandleEvent tr) st ∧
    cubeHandleEvent tr st (Ev.resized w h) = OnResize tr st w h ∧
    (processEventsTriangle st (Ev.quit :: rest)).2 = rest ∧
    (processEventsTriangle st (Ev.resized w h :: rest)).1 =
      (processEventsTriangle st rest).1 :=
  ⟨processCube_leftover tr evs st, processCube_foldl tr evs st, rfl, rfl, rfl⟩

/-- C9: the process exit code distinguishes the failure modes — SDL init
failure returns -1, window creation failure returns -3, graphics backend
init failure returns -5 (pairwise distinct, all negative), and a normal
quit-triggered shutdown returns exactly 0. -/
theorem exit_code_contract (tr : Trig) (env : MainEnv) :
    (env.sdlInitOk = false → mainCube tr env = some (-1)) ∧
    (env.sdlInitOk = true → env.windowOk = false →
      mainCube tr env = some (-3)) ∧
    (env.sdlInitOk = true → env.windowOk = true →
      isOkB (InitializeGraphicsEngine env.gfx env.win32 emptyGfxSession
        .D3D11).1 = false →
      mainCube tr env = some (-5)) ∧
    ((-1 : Int) < 0 ∧ (-3 : Int) < 0 ∧ (-5 : Int) < 0 ∧
      (-1 : Int) ≠ -3 ∧ (-1 : Int) ≠ -5 ∧ (-3 : Int) ≠ -5) ∧
    (∀ f rest, env.sdlInitOk = true → env.windowOk = true →
      isOkB (InitializeGraphicsEngine env.gfx env.win32 emptyGfxSession
        .D3D11).1 = true →
      env.frames = f :: rest → Ev.quit ∈ f.events →
      mainCube tr env = some 0) := by
  refine ⟨?_, ?_, ?_, by norm_num, ?_⟩
  · intro h1
    simp [mainCube, h1]
  · intro h1 h2
    simp [mainCube, h1, h2]
  · intro h1 h2 h3
    rcases hI : InitializeGraphicsEngine env.gfx env.win32 emptyGfxSession
      .D3D11 with ⟨exc, g⟩
    cases exc with
    | error e => simp [mainCube, h1, h2, hI]
    | ok u => rw [hI] at h3; simp [isOkB] at h3
  · intro f rest h1 h2 h3 h4 h5
    rcases hI : InitializeGraphicsEngine env.gfx env.win32 emptyGfxSession
      .D3D11 with ⟨exc, g⟩
    cases exc with
    | error e => rw [hI] at h3; simp [isOkB] at h3
    | ok u =>
      obtain ⟨recs, stF, hrun, _, _⟩ :=
        runCube_quit tr f rest h5 [] (initCubeState tr g) (by simp) rfl
      rw [List.nil_append] at hrun
      simp [mainCube, h1, h2, h4, hI, hrun]

/-- C9 witness: the four exit codes at concrete environments. -/
theorem exit_code_contract_witness :
    mainCube trW ⟨false, true, ⟨true, true, true⟩, true, []⟩ = some (-1) ∧
    mainCube trW ⟨true, false, ⟨true, true, true⟩, true, []⟩ = some (-3) ∧
    mainCube trW ⟨true, true, ⟨false, true, true⟩, true, []⟩ = some (-5) ∧
    mainCube trW ⟨true, true, ⟨true, true, true⟩, true,
      [FrameInput.mk 0 [Ev.quit]]⟩ = some 0 :=
  ⟨(exit_code_contract trW _).1 rfl,
   (exit_code_contract trW _).2.1 rfl rfl,
   (exit_code_contract trW _).2.2.1 rfl rfl (by decide),
   (exit_code_contract trW _).2.2.2.2 (FrameInput.mk 0 [Ev.quit]) []
     rfl rfl (by decide) rfl (by decide)⟩

/-- C1 counterexample: the claim's "on failure the session globals remain
empty" fails at a concrete input — with the factory environment where
device creation succeeds but swapchain creation fails, initializing the
D3D11 backend on a Win32 build raises the backend error while leaving the
device and immediate context populated in the globals (a partial
session). -/
theorem backend_init_partial_session_cex :
    isOkB (InitializeGraphicsEngine ⟨true, false, true⟩ true emptyGfxSession
      .D3D11).1 = false ∧
    ¬ (InitializeGraphicsEngine ⟨true, false, true⟩ true emptyGfxSession
      .D3D11).2 = emptyGfxSession ∧
    (InitializeGraphicsEngine ⟨true, false, true⟩ true emptyGfxSession
      .D3D11).2.m_pDevice = some 0 ∧
    (InitializeGraphicsEngine ⟨true, false, true⟩ true emptyGfxSession
      .D3D11).2.m_pSwapChain = none := by
  decide

/-- C1 (amended): for every backend kind, platform, and factory outcome,
`InitializeGraphicsEngine` (either variant) either completes with all
three of device, immediate context, and swapchain populated, or raises an
error ("BackendInitFailure..." / "Unsupported render device type") —
there is no third outcome; on failure the session globals either remain
empty or retain exactly the device and immediate context created before a
failed swapchain creation (the caller aborts startup, so a partial
session is never used). -/
theorem backend_init_outcomes (env : GfxEnv) (win32 : Bool)
    (rdt : RENDER_DEVICE_TYPE) :
    (isOkB (InitializeGraphicsEngine env win32 emptyGfxSession rdt).1 =
        true →
      allPopulated (InitializeGraphicsEngine env win32 emptyGfxSession
        rdt).2 = true) ∧
    (isOkB (InitializeGraphicsEngine env win32 emptyGfxSession rdt).1 =
        false →
      (InitializeGraphicsEngine env win32 emptyGfxSession rdt).2 =
          emptyGfxSession ∨
        partialDevCtx (InitializeGraphicsEngine env win32 emptyGfxSession
          rdt).2 = true) ∧
    (isOkB (InitializeGraphicsEngineTri env win32 emptyGfxSession rdt).1 =
        true →
      allPopulated (InitializeGraphicsEngineTri env win32 emptyGfxSession
        rdt).2 = true) ∧
    (isOkB (InitializeGraphicsEngineTri env win32 emptyGfxSession rdt).1 =
        false →
      (InitializeGraphicsEngineTri env win32 emptyGfxSession rdt).2 =
          emptyGfxSession ∨
        partialDevCtx (InitializeGraphicsEngineTri env win32
          emptyGfxSession rdt).2 = true) := by
  obtain ⟨d, sc, gl⟩ := env
  cases d <;> cases sc <;> cases gl <;> cases win32 <;> cases rdt <;> decide

/-- C1 witness: a successful Vulkan initialization populates all three
globals, and the triangle variant's unsupported-free GL path does too;
the cube variant's GL request fails with the globals left empty. -/
theorem backend_init_outcomes_witness :
    (isOkB (InitializeGraphicsEngine ⟨true, true, true⟩ true emptyGfxSession
        .VULKAN).1 = true ∧
      allPopulated (InitializeGraphicsEngine ⟨true, true, true⟩ true
        emptyGfxSession .VULKAN).2 = true) ∧
    (isOkB (InitializeGraphicsEngineTri ⟨true, true, true⟩ false
        emptyGfxSession .GL).1 = true ∧
      allPopulated (InitializeGraphicsEngineTri ⟨true, true, true⟩ false
        emptyGfxSession .GL).2 = true) ∧
    (isOkB (InitializeGraphicsEngine ⟨true, true, true⟩ false
        emptyGfxSession .GL).1 = false ∧
      ((InitializeGraphicsEngine ⟨true, true, true⟩ false emptyGfxSession
          .GL).2 = emptyGfxSession ∨
        partialDevCtx (InitializeGraphicsEngine ⟨true, true, true⟩ false
          emptyGfxSession .GL).2 = true)) :=
  ⟨⟨by decide, (backend_init_outcomes ⟨true, true, true⟩ true .VULKAN).1
      (by decide)⟩,
   ⟨by decide, (backend_init_outcomes ⟨true, true, true⟩ false .GL).2.2.1
      (by decide)⟩,
   ⟨by decide, (backend_init_outcomes ⟨true, true, true⟩ false .GL).2.1
      (by decide)⟩⟩

end PlusCraft
